import Mathlib

/-!
Shallow embedding of the polling / reconciliation state machine of
`drivers/generic_device.js` (com.gruijter.hyundai_kia).

The vehicle API client (bluelinky / kuvork), the ABRP telemetry forwarder,
the reverse geocoder, the GeoPoint distance library and the temperature code
converter are external collaborators: they are modelled as oracle inputs
(`Env`) or abstract function parameters (`Externals`).  Everything else is
translated directly from the JavaScript source.
-/

namespace HyundaiKia

/-- A Homey capability value: the device stores booleans, numbers and
strings; `vNull` models an unset capability (JS `null`/`undefined`). -/
inductive Value
  | vNull
  | vB (b : Bool)
  | vN (n : Int)
  | vS (t : String)
  deriving DecidableEq, Repr

/-- The fields of the unparsed vehicle status record that
`generic_device.js` actually reads (see the sample payloads in the source).
`doorOpen` is the list of the per-door open values (0 = closed) in
`Object.keys` order. -/
structure Status where
  airCtrlOn : Bool
  engine : Bool
  doorLock : Bool
  doorOpen : List Nat
  trunkOpen : Bool
  airTempValue : String        -- status.airTemp.value (e.g. "10H")
  defrost : Bool
  batteryCharge : Bool         -- status.evStatus.batteryCharge
  batteryStatus : Int          -- status.evStatus.batteryStatus (EV SoC)
  batteryPlugin : Nat          -- status.evStatus.batteryPlugin
  rangeValue : Int             -- evStatus.drvDistance[0].rangeByFuel.totalAvailableRange.value
  hoodOpen : Bool
  tirePressureLampAll : Nat    -- status.tirePressureLamp.tirePressureLampAll
  batSoc : Int                 -- status.battery.batSoc (12V battery)
  sleepModeCheck : Bool        -- absent ⇒ falsy ⇒ false
  time : String                -- status.time
  deriving DecidableEq, Repr

/-- The location record returned by `vehicle.location()`. -/
structure Location where
  latitude : Int
  longitude : Int
  speedValue : Int             -- location.speed.value
  deriving DecidableEq, Repr

/-- The odometer record returned by `vehicle.odometer()`. -/
structure Odometer where
  value : Int
  deriving DecidableEq, Repr

/-- The argument of `handleInfo`: `{ status, location, odometer }`. -/
structure Info where
  status : Status
  location : Location
  odometer : Odometer
  deriving DecidableEq, Repr

/-- The device settings consumed by the poll loop and `handleInfo`.
`pollIntervalForced = 0` models the JS falsy "not configured" value. -/
structure Settings where
  pollIntervalForced : Nat
  batteryAlarmLevel : Int
  EVbatteryAlarmLevel : Int
  abrpUserTokenLength : Nat
  deriving DecidableEq, Repr

/-- The mutable per-device fields of `CarDevice` that `doPoll` reads and
writes.  `none` models the JS `undefined` of a field that has never been
assigned. -/
structure DeviceState where
  busy : Bool
  watchDogCounter : Int
  lastStatus : Option Status
  lastLocation : Option Location
  lastOdometer : Option Odometer
  lastRefresh : Option Int     -- ms timestamp of the last new status
  carLastActive : Option Int   -- ms timestamp of the last observed activity
  liveData : Bool
  deriving DecidableEq, Repr

/-- Oracle for one poll cycle: the clock and the outcomes the external
vehicle API client would produce if called.  `none` means the awaited call
throws. -/
structure Env where
  now : Int
  loginOk : Bool               -- client.login() resolves
  vehicleOk : Bool             -- this.vehicle && this.vehicle.vehicleConfig
  cachedStatus : Option Status -- vehicle.status({refresh:false})
  fullStatus : Option Status   -- vehicle.status({refresh:true})
  location : Option Location   -- vehicle.location()
  odometer : Option Odometer   -- vehicle.odometer()
  deriving DecidableEq, Repr

/-- The network calls a cycle issues, in order. -/
inductive ApiCall
  | login
  | statusCached
  | statusFull
  | location
  | odometer
  | abrpSend
  deriving DecidableEq, Repr

/-- How a `doPoll` invocation ended.  `published i ns` means `handleInfo`
was invoked with the triple `i`; `ns` is the local `newStatus` flag. -/
inductive Outcome
  | restarted
  | skippedBusy
  | errLogin
  | errNotLoggedIn
  | errCheapFetch
  | errFullFetch
  | errLocation
  | errOdometer
  | published (i : Option Status × Option Location × Option Odometer) (newStatus : Bool)
  deriving DecidableEq, Repr

/-! ## Derived values of `handleInfo` -/

/-- `closedLocked` as computed at lines 300-301 of `generic_device.js`:
`locked && !trunkOpen && !hoodOpen && Object.keys(doorOpen).reduce((closedAccu,
door) => closedAccu || !doorOpen[door], true)`.  A door value is falsy
exactly when it is `0`. -/
def closedLockedOf (st : Status) : Bool :=
  st.doorLock && !st.trunkOpen && !st.hoodOpen
    && st.doorOpen.foldl (fun closedAccu d => closedAccu || decide (d = 0)) true

/-- The capability/trigger sink of the platform (`hasCapability`,
`getCapabilityValue`), read-only during one `handleInfo` run. -/
structure Sink where
  hasCapability : String → Bool
  getCapabilityValue : String → Value

/-- External collaborators used by `handleInfo`: the temperature code
converter (`temp_convert`), the reverse geocoder (`reverseGeo`) and the
GeoPoint-based `distance` computation (floating point, external library). -/
structure Externals where
  getTempFromCode : String → Value
  getCarLocString : Location → String
  distance : Location → Value

/-- The 18 `setCapability(name, value)` pairs issued by `handleInfo`
(lines 314-331), in source order. -/
def derivedCaps (settings : Settings) (ext : Externals) (liveData : Bool)
    (info : Info) : List (String × Value) :=
  let alarmEVBattery := decide (info.status.batteryStatus ≤ settings.EVbatteryAlarmLevel)
  let alarmBattery := decide (info.status.batSoc ≤ settings.batteryAlarmLevel)
  [ ("measure_battery.EV", Value.vN info.status.batteryStatus),
    ("measure_battery.12V", Value.vN info.status.batSoc),
    ("alarm_battery", Value.vB (alarmBattery || alarmEVBattery)),
    ("alarm_tire_pressure", Value.vB (decide (info.status.tirePressureLampAll ≠ 0))),
    ("locked", Value.vB info.status.doorLock),
    ("closed_locked", Value.vB (closedLockedOf info.status)),
    ("target_temperature", ext.getTempFromCode info.status.airTempValue),
    ("defrost", Value.vB info.status.defrost),
    ("climate_control", Value.vB info.status.airCtrlOn),
    ("engine", Value.vB info.status.engine),
    ("charging", Value.vB info.status.batteryCharge),
    ("charger", Value.vS (toString info.status.batteryPlugin)),
    ("odometer", Value.vN info.odometer.value),
    ("range", Value.vN info.status.rangeValue),
    ("speed", Value.vN info.location.speedValue),
    ("location", Value.vS (ext.getCarLocString info.location)),
    ("distance", ext.distance info.location),
    ("live_data", Value.vB liveData) ]

/-- `setCapability` (lines 233-243): the `setCapabilityValue` invocations it
issues.  The sink write happens only when the device has the capability and
the value differs from the currently stored one ("only update changed
capabilities"). -/
def setCapability (sink : Sink) (capability : String) (value : Value) :
    List (String × Value) :=
  if sink.hasCapability capability then
    if value ≠ sink.getCapabilityValue capability then [(capability, value)] else []
  else []

/-- All `setCapabilityValue` invocations of one `handleInfo` run. -/
def capabilityWrites (settings : Settings) (ext : Externals) (sink : Sink)
    (liveData : Bool) (info : Info) : List (String × Value) :=
  (derivedCaps settings ext liveData info).flatMap fun p => setCapability sink p.1 p.2

/-- `engineChange` (line 308). -/
def engineChangeOf (sink : Sink) (st : Status) : Bool :=
  decide (Value.vB st.engine ≠ sink.getCapabilityValue "engine")

/-- `chargingChange` (line 309). -/
def chargingChangeOf (sink : Sink) (st : Status) : Bool :=
  decide (Value.vB st.batteryCharge ≠ sink.getCapabilityValue "charging")

/-- `climateControlChange` (line 310). -/
def climateControlChangeOf (sink : Sink) (st : Status) : Bool :=
  decide (Value.vB st.airCtrlOn ≠ sink.getCapabilityValue "climate_control")

/-- `defrostChange` (line 311). -/
def defrostChangeOf (sink : Sink) (st : Status) : Bool :=
  decide (Value.vB st.defrost ≠ sink.getCapabilityValue "defrost")

/-- The directional flow trigger cards fired by one `handleInfo` run
(lines 335-378), in source order. -/
def triggersFired (sink : Sink) (st : Status) : List String :=
  (if engineChangeOf sink st then
    [if st.engine then "engine_true" else "engine_false"] else [])
  ++ (if chargingChangeOf sink st then
    [if st.batteryCharge then "charging_true" else "charging_false"] else [])
  ++ (if climateControlChangeOf sink st then
    [if st.airCtrlOn then "climate_control_true" else "climate_control_false"] else [])
  ++ (if defrostChangeOf sink st then
    [if st.defrost then "defrost_true" else "defrost_false"] else [])

/-- Number of the four monitored booleans that differ from the previously
published capability values. -/
def changedCount (sink : Sink) (st : Status) : Nat :=
  (if engineChangeOf sink st then 1 else 0)
  + (if chargingChangeOf sink st then 1 else 0)
  + (if climateControlChangeOf sink st then 1 else 0)
  + (if defrostChangeOf sink st then 1 else 0)

/-! ## The poll cycle `doPoll` -/

/-- The forced-poll-interval part of the `forceRefresh` condition
(line 104): `(pollIntervalForced * 60 * 1000) < (Date.now() - lastRefresh)`.
When `lastRefresh` was never assigned, `Date.now() - undefined` is `NaN`
and every `<` comparison with `NaN` is false. -/
def forcedIntervalElapsed (settings : Settings) (now : Int)
    (lastRefresh : Option Int) : Bool :=
  match lastRefresh with
  | some t => decide ((settings.pollIntervalForced : Int) * 60 * 1000 < now - t)
  | none => false

/-- `forceRefresh` (lines 103-105): `force || (pollIntervalForced && interval
elapsed) || !status || !location || !odometer`, where the three locals hold
the stored `lastStatus` / `lastLocation` / `lastOdometer`. -/
def forceRefreshOf (settings : Settings) (now : Int) (s : DeviceState)
    (force : Bool) : Bool :=
  force
  || (decide (settings.pollIntervalForced ≠ 0)
        && forcedIntervalElapsed settings now s.lastRefresh)
  || s.lastStatus.isNone || s.lastLocation.isNone || s.lastOdometer.isNone

/-- `sleepModeCheck` (line 119): `status ? (status.sleepModeCheck ||
(status.time !== this.lastStatus.time)) : null` (null coerces to false where
used).  The `some`/`none` combination cannot occur inside `doPoll`: the
cheap fetch only runs when `lastStatus` is present, and otherwise `status`
is `lastStatus` itself; we return `true` there (the value JS produces when
`sleepModeCheck` is set; it would throw otherwise). -/
def sleepModeCheckOf (status last : Option Status) : Bool :=
  match status, last with
  | some st, some prev => st.sleepModeCheck || decide (st.time ≠ prev.time)
  | some _, none => true
  | none, _ => false

/-- `carActive` (line 122): `status ? (status.engine || status.airCtrlOn ||
status.defrost || sleepModeCheck) : null` (null coerces to false where
used). -/
def carActiveOf (status : Option Status) (sleepModeCheck : Bool) : Bool :=
  match status with
  | some st => st.engine || st.airCtrlOn || st.defrost || sleepModeCheck
  | none => false

/-- `carJustActive` (line 123): `(Date.now() - this.carLastActive) < 5 * 60 *
1000`; `NaN < x` is false when `carLastActive` was never assigned. -/
def carJustActiveOf (now : Int) (carLastActive : Option Int) : Bool :=
  match carLastActive with
  | some t => decide (now - t < 5 * 60 * 1000)
  | none => false

/-- `batSoCGood` (line 124): `status ? (status.battery.batSoc >
this.settings.batteryAlarmLevel) : true`. -/
def batSoCGoodOf (settings : Settings) (status : Option Status) : Bool :=
  match status with
  | some st => decide (st.batSoc > settings.batteryAlarmLevel)
  | none => true

/-- `this.liveData` (line 126): `forceRefresh || (batSoCGood && (carActive ||
carJustActive))`, with `status` the record in hand at that point. -/
def liveDataOf (settings : Settings) (env : Env) (s1 : DeviceState)
    (forceRefresh : Bool) (status : Option Status) : Bool :=
  forceRefresh
  || (batSoCGoodOf settings status
        && (carActiveOf status (sleepModeCheckOf status s1.lastStatus)
              || carJustActiveOf env.now s1.carLastActive))

/-- The `catch` block of `doPoll` (lines 164-168): decrement the watchdog,
clear `busy`; the error is logged, not rethrown. -/
def failState (s : DeviceState) : DeviceState :=
  { s with watchDogCounter := s.watchDogCounter - 1, busy := false }

/-- Lines 146-163 of `doPoll`: update `lastRefresh` / `carLastActive`,
fire the ABRP telemetry when live data is on and a user token is set, call
`handleInfo` (recorded as the `published` outcome), reset the watchdog to 5
and clear `busy`. -/
def finishCycle (settings : Settings) (env : Env) (sNow : DeviceState)
    (carActive newStatus : Bool) (status : Option Status)
    (location : Option Location) (odometer : Option Odometer)
    (calls : List ApiCall) : DeviceState × Outcome × List ApiCall :=
  let lastRefresh := if newStatus then some env.now else sNow.lastRefresh
  let carLastActive := if carActive then lastRefresh else sNow.carLastActive
  let abrp := sNow.liveData && decide (settings.abrpUserTokenLength > 5)
  ({ sNow with lastRefresh := lastRefresh, carLastActive := carLastActive,
               watchDogCounter := 5, busy := false },
   Outcome.published (status, location, odometer) newStatus,
   calls ++ if abrp then [ApiCall.abrpSend] else [])

/-- Lines 119-163 of `doPoll`: everything after the cheap-fetch decision.
`s1` is the device state with `busy` already set, `status` the local
variable after the optional cheap fetch, `calls` the API calls issued so
far. -/
def doPollRest (settings : Settings) (env : Env) (s1 : DeviceState)
    (forceRefresh : Bool) (status : Option Status) (calls : List ApiCall) :
    DeviceState × Outcome × List ApiCall :=
  let carActive := carActiveOf status (sleepModeCheckOf status s1.lastStatus)
  let liveData := liveDataOf settings env s1 forceRefresh status
  let s2 := { s1 with liveData := liveData }
  if liveData then
    match env.fullStatus with
    | none => (failState s2, Outcome.errFullFetch, calls ++ [ApiCall.statusFull])
    | some st =>
      -- newStatus = true; line 136: this.lastStatus = status
      let s3 := { s2 with lastStatus := some st }
      match env.location with
      | none => (failState s3, Outcome.errLocation,
                 calls ++ [ApiCall.statusFull, ApiCall.location])
      | some loc =>
        let s4 := { s3 with lastLocation := some loc }
        match env.odometer with
        | none => (failState s4, Outcome.errOdometer,
                   calls ++ [ApiCall.statusFull, ApiCall.location, ApiCall.odometer])
        | some od =>
          let s5 := { s4 with lastOdometer := some od }
          finishCycle settings env s5 carActive true (some st) (some loc) (some od)
            (calls ++ [ApiCall.statusFull, ApiCall.location, ApiCall.odometer])
  else
    -- line 136 still runs: this.lastStatus = status (the cheap/held record)
    let s3 := { s2 with lastStatus := status }
    finishCycle settings env s3 carActive false status s1.lastLocation
      s1.lastOdometer calls

/-- One invocation of `doPoll(force)` (lines 81-169), as a function of the
device state and the cycle's oracle.  Returns the new device state, how the
cycle ended, and the API calls it issued. -/
def doPoll (settings : Settings) (env : Env) (s : DeviceState) (force : Bool) :
    DeviceState × Outcome × List ApiCall :=
  if s.watchDogCounter ≤ 0 then
    -- watchdog triggered: restartDevice() is initiated, nothing else happens
    (s, Outcome.restarted, [])
  else if s.busy then
    ({ s with watchDogCounter := s.watchDogCounter - 1 }, Outcome.skippedBusy, [])
  else
    let s1 := { s with busy := true }
    if env.loginOk = false then
      (failState s1, Outcome.errLogin, [ApiCall.login])
    else if env.vehicleOk = false then
      (failState s1, Outcome.errNotLoggedIn, [ApiCall.login])
    else
      if forceRefreshOf settings env.now s force then
        doPollRest settings env s1 true s.lastStatus [ApiCall.login]
      else
        match env.cachedStatus with
        | none => (failState s1, Outcome.errCheapFetch,
                   [ApiCall.login, ApiCall.statusCached])
        | some st => doPollRest settings env s1 false (some st)
                       [ApiCall.login, ApiCall.statusCached]

/-! ## Restart and scheduling -/

/-- Device state plus whether the recurring poll timer is armed. -/
structure SchedState where
  dev : DeviceState
  pollingArmed : Bool
  deriving DecidableEq, Repr

/-- `restartDevice` (lines 185-191): `stopPolling()` immediately; the
deferred `onInitDevice` runs after the delay. -/
def restartDevice (st : SchedState) : SchedState :=
  { st with pollingArmed := false }

/-- The state effect of `onInitDevice` (lines 36-79): `busy := false`,
`watchDogCounter := 5`, then `startPolling` re-arms the timer. -/
def onInitDevice (st : SchedState) : SchedState :=
  { dev := { st.dev with busy := false, watchDogCounter := 5 },
    pollingArmed := true }

/-- Sequential (non-overlapping) execution of poll cycles. -/
def runCycles (settings : Settings) : List (Env × Bool) → DeviceState → DeviceState
  | [], s => s
  | (env, force) :: rest, s => runCycles settings rest (doPoll settings env s force).1

/-- The watchdog stays within its budget. -/
def wdInv (s : DeviceState) : Prop :=
  0 ≤ s.watchDogCounter ∧ s.watchDogCounter ≤ 5

/-- Outcomes that count as a failed or skipped cycle (the `catch` path and
the busy skip). -/
def isFailOrSkip : Outcome → Bool
  | Outcome.skippedBusy | Outcome.errLogin | Outcome.errNotLoggedIn
  | Outcome.errCheapFetch | Outcome.errFullFetch | Outcome.errLocation
  | Outcome.errOdometer => true
  | _ => false

/-- Outcomes that completed through snapshot publication. -/
def isPublished : Outcome → Bool
  | Outcome.published _ _ => true
  | _ => false

/-! ## Helper lemmas about `doPollRest` and `doPoll` -/

lemma doPollRest_busy (settings : Settings) (env : Env) (s1 : DeviceState)
    (fr : Bool) (st : Option Status) (calls : List ApiCall) :
    (doPollRest settings env s1 fr st calls).1.busy = false := by
  simp only [doPollRest]
  split
  · cases hf : env.fullStatus <;> simp only [hf]
    · simp [failState]
    · cases hl : env.location <;> simp only [hl]
      · simp [failState]
      · cases ho : env.odometer <;> simp only [ho]
        · simp [failState]
        · simp [finishCycle]
  · simp [finishCycle]

lemma doPollRest_liveData (settings : Settings) (env : Env) (s1 : DeviceState)
    (fr : Bool) (st : Option Status) (calls : List ApiCall) :
    (doPollRest settings env s1 fr st calls).1.liveData =
      liveDataOf settings env s1 fr st := by
  simp only [doPollRest]
  split
  · cases hf : env.fullStatus <;> cases hl : env.location <;> cases ho : env.odometer <;>
      simp [hf, hl, ho, failState, finishCycle]
  · simp [finishCycle]

lemma doPollRest_watchdog (settings : Settings) (env : Env) (s1 : DeviceState)
    (fr : Bool) (st : Option Status) (calls : List ApiCall) :
    (doPollRest settings env s1 fr st calls).1.watchDogCounter =
      (if isPublished (doPollRest settings env s1 fr st calls).2.1 then 5
       else s1.watchDogCounter - 1) := by
  simp only [doPollRest]
  split
  · cases hf : env.fullStatus <;> cases hl : env.location <;> cases ho : env.odometer <;>
      simp [hf, hl, ho, failState, finishCycle, isPublished]
  · simp [finishCycle, isPublished]

lemma doPollRest_outcome (settings : Settings) (env : Env) (s1 : DeviceState)
    (fr : Bool) (st : Option Status) (calls : List ApiCall) :
    (doPollRest settings env s1 fr st calls).2.1 ≠ Outcome.restarted ∧
    (doPollRest settings env s1 fr st calls).2.1 ≠ Outcome.skippedBusy ∧
    (doPollRest settings env s1 fr st calls).2.1 ≠ Outcome.errLogin ∧
    (doPollRest settings env s1 fr st calls).2.1 ≠ Outcome.errNotLoggedIn ∧
    (doPollRest settings env s1 fr st calls).2.1 ≠ Outcome.errCheapFetch := by
  simp only [doPollRest]
  split
  · cases hf : env.fullStatus <;> cases hl : env.location <;> cases ho : env.odometer <;>
      simp [hf, hl, ho, failState, finishCycle]
  · simp [finishCycle]

lemma doPollRest_snapshots (settings : Settings) (env : Env) (s1 : DeviceState)
    (fr : Bool) (st : Option Status) (calls : List ApiCall) :
    ((doPollRest settings env s1 fr st calls).2.1 = Outcome.errFullFetch →
      (doPollRest settings env s1 fr st calls).1.lastStatus = s1.lastStatus ∧
      (doPollRest settings env s1 fr st calls).1.lastLocation = s1.lastLocation ∧
      (doPollRest settings env s1 fr st calls).1.lastOdometer = s1.lastOdometer) ∧
    ((doPollRest settings env s1 fr st calls).2.1 = Outcome.errLocation →
      (doPollRest settings env s1 fr st calls).1.lastStatus = env.fullStatus ∧
      (doPollRest settings env s1 fr st calls).1.lastLocation = s1.lastLocation ∧
      (doPollRest settings env s1 fr st calls).1.lastOdometer = s1.lastOdometer) ∧
    ((doPollRest settings env s1 fr st calls).2.1 = Outcome.errOdometer →
      (doPollRest settings env s1 fr st calls).1.lastStatus = env.fullStatus ∧
      (doPollRest settings env s1 fr st calls).1.lastLocation = env.location ∧
      (doPollRest settings env s1 fr st calls).1.lastOdometer = s1.lastOdometer) ∧
    (∀ i, (doPollRest settings env s1 fr st calls).2.1 = Outcome.published i true →
      (doPollRest settings env s1 fr st calls).1.lastStatus = env.fullStatus ∧
      (doPollRest settings env s1 fr st calls).1.lastLocation = env.location ∧
      (doPollRest settings env s1 fr st calls).1.lastOdometer = env.odometer ∧
      i.1 = env.fullStatus ∧ i.2.1 = env.location ∧ i.2.2 = env.odometer) ∧
    (∀ i, (doPollRest settings env s1 fr st calls).2.1 = Outcome.published i false →
      (doPollRest settings env s1 fr st calls).1.lastStatus = st ∧ i.1 = st ∧
      (doPollRest settings env s1 fr st calls).1.lastLocation = s1.lastLocation ∧
      (doPollRest settings env s1 fr st calls).1.lastOdometer = s1.lastOdometer) := by
  simp only [doPollRest]
  split
  · cases hf : env.fullStatus <;> cases hl : env.location <;> cases ho : env.odometer <;>
      simp [hf, hl, ho, failState, finishCycle]
  · simp [finishCycle]

lemma doPollRest_calls (settings : Settings) (env : Env) (s1 : DeviceState)
    (fr : Bool) (st : Option Status) (calls : List ApiCall) :
    ∀ c ∈ (doPollRest settings env s1 fr st calls).2.2,
      c ∈ calls ∨ c = ApiCall.statusFull ∨ c = ApiCall.location ∨
      c = ApiCall.odometer ∨ c = ApiCall.abrpSend := by
  simp only [doPollRest]
  split
  · cases hf : env.fullStatus <;> cases hl : env.location <;> cases ho : env.odometer <;>
      simp only [hf, hl, ho] <;> intro c hc <;>
      simp [failState, finishCycle] at hc <;> tauto
  · intro c hc
    simp only [finishCycle] at hc
    rcases List.mem_append.mp hc with h | h
    · exact Or.inl h
    · split at h <;> simp_all

lemma doPollRest_errLocation_calls (settings : Settings) (env : Env)
    (s1 : DeviceState) (fr : Bool) (st : Option Status) (calls : List ApiCall)
    (h : (doPollRest settings env s1 fr st calls).2.1 = Outcome.errLocation) :
    (doPollRest settings env s1 fr st calls).2.2 =
      calls ++ [ApiCall.statusFull, ApiCall.location] := by
  revert h
  simp only [doPollRest]
  split
  · cases hf : env.fullStatus <;> cases hl : env.location <;> cases ho : env.odometer <;>
      simp [hf, hl, ho, failState, finishCycle]
  · simp [finishCycle]

lemma doPollRest_not_live (settings : Settings) (env : Env) (s1 : DeviceState)
    (fr : Bool) (st : Option Status) (calls : List ApiCall)
    (h : liveDataOf settings env s1 fr st = false) :
    (doPollRest settings env s1 fr st calls).2.1 =
      Outcome.published (st, s1.lastLocation, s1.lastOdometer) false ∧
    (doPollRest settings env s1 fr st calls).2.2 = calls := by
  simp only [doPollRest, h]
  simp [finishCycle, h, doPollRest_liveData]

/-- Exhaustive case analysis of one `doPoll` invocation: every run falls
into exactly one of the seven source paths. -/
lemma doPoll_cases (settings : Settings) (env : Env) (s : DeviceState) (force : Bool) :
    (s.watchDogCounter ≤ 0 ∧
      doPoll settings env s force = (s, Outcome.restarted, [])) ∨
    (0 < s.watchDogCounter ∧ s.busy = true ∧
      doPoll settings env s force =
        ({ s with watchDogCounter := s.watchDogCounter - 1 }, Outcome.skippedBusy, [])) ∨
    (0 < s.watchDogCounter ∧ s.busy = false ∧ env.loginOk = false ∧
      doPoll settings env s force =
        (failState { s with busy := true }, Outcome.errLogin, [ApiCall.login])) ∨
    (0 < s.watchDogCounter ∧ s.busy = false ∧ env.loginOk = true ∧ env.vehicleOk = false ∧
      doPoll settings env s force =
        (failState { s with busy := true }, Outcome.errNotLoggedIn, [ApiCall.login])) ∨
    (0 < s.watchDogCounter ∧ s.busy = false ∧ env.loginOk = true ∧ env.vehicleOk = true ∧
      forceRefreshOf settings env.now s force = true ∧
      doPoll settings env s force =
        doPollRest settings env { s with busy := true } true s.lastStatus [ApiCall.login]) ∨
    (0 < s.watchDogCounter ∧ s.busy = false ∧ env.loginOk = true ∧ env.vehicleOk = true ∧
      forceRefreshOf settings env.now s force = false ∧ env.cachedStatus = none ∧
      doPoll settings env s force =
        (failState { s with busy := true }, Outcome.errCheapFetch,
         [ApiCall.login, ApiCall.statusCached])) ∨
    (0 < s.watchDogCounter ∧ s.busy = false ∧ env.loginOk = true ∧ env.vehicleOk = true ∧
      forceRefreshOf settings env.now s force = false ∧
      ∃ st, env.cachedStatus = some st ∧
        doPoll settings env s force =
          doPollRest settings env { s with busy := true } false (some st)
            [ApiCall.login, ApiCall.statusCached]) := by
  by_cases h0 : s.watchDogCounter ≤ 0
  · exact Or.inl ⟨h0, by simp [doPoll, h0]⟩
  have h0' : 0 < s.watchDogCounter := by omega
  by_cases hb : s.busy = true
  · exact Or.inr (Or.inl ⟨h0', hb, by simp [doPoll, h0, hb]⟩)
  have hb' : s.busy = false := by simpa using hb
  by_cases hl : env.loginOk = true
  · by_cases hv : env.vehicleOk = true
    · by_cases hf : forceRefreshOf settings env.now s force = true
      · refine Or.inr (Or.inr (Or.inr (Or.inr (Or.inl ⟨h0', hb', hl, hv, hf, ?_⟩))))
        simp [doPoll, h0, hb', hl, hv, hf]
      · have hf' : forceRefreshOf settings env.now s force = false := by simpa using hf
        cases hc : env.cachedStatus with
        | none =>
          refine Or.inr (Or.inr (Or.inr (Or.inr (Or.inr (Or.inl
            ⟨h0', hb', hl, hv, hf', rfl, ?_⟩)))))
          simp [doPoll, h0, hb', hl, hv, hf', hc]
        | some st =>
          refine Or.inr (Or.inr (Or.inr (Or.inr (Or.inr (Or.inr
            ⟨h0', hb', hl, hv, hf', st, rfl, ?_⟩)))))
          simp [doPoll, h0, hb', hl, hv, hf', hc]
    · have hv' : env.vehicleOk = false := by simpa using hv
      refine Or.inr (Or.inr (Or.inr (Or.inl ⟨h0', hb', hl, hv', ?_⟩)))
      simp [doPoll, h0, hb', hl, hv']
  · have hl' : env.loginOk = false := by simpa using hl
    refine Or.inr (Or.inr (Or.inl ⟨h0', hb', hl', ?_⟩))
    simp [doPoll, h0, hb', hl']

/-! ## Concrete instances (from the sample payloads in the source) -/

/-- A parked, locked, all-doors-closed status (second sample payload). -/
def status0 : Status :=
  { airCtrlOn := false, engine := false, doorLock := true,
    doorOpen := [0, 0, 0, 0], trunkOpen := false, airTempValue := "10H",
    defrost := false, batteryCharge := false, batteryStatus := 72,
    batteryPlugin := 0, rangeValue := 333, hoodOpen := false,
    tirePressureLampAll := 0, batSoc := 85, sleepModeCheck := false,
    time := "20200721101842" }

/-- A fresher status the full refresh would return. -/
def status1 : Status :=
  { status0 with engine := true, time := "20200721110000" }

def loc0 : Location := { latitude := 52, longitude := 5, speedValue := 0 }

def odo0 : Odometer := { value := 171 }

def cSettings : Settings :=
  { pollIntervalForced := 0, batteryAlarmLevel := 40,
    EVbatteryAlarmLevel := 20, abrpUserTokenLength := 0 }

/-- A healthy device state holding a complete previous snapshot. -/
def cState : DeviceState :=
  { busy := false, watchDogCounter := 5, lastStatus := some status0,
    lastLocation := some loc0, lastOdometer := some odo0,
    lastRefresh := some 1000, carLastActive := none, liveData := false }

/-- Oracle for a cycle where the full status fetch succeeds and the
location fetch throws. -/
def cEnvLocFail : Env :=
  { now := 2000, loginOk := true, vehicleOk := true,
    cachedStatus := some status0, fullStatus := some status1,
    location := none, odometer := some odo0 }

/-- Oracle for a fully successful cycle. -/
def cEnvOk : Env :=
  { now := 2000, loginOk := true, vehicleOk := true,
    cachedStatus := some status0, fullStatus := some status1,
    location := some loc0, odometer := some odo0 }

/-- `status0` with the lock engaged but the front-left door reported open. -/
def openDoorStatus : Status :=
  { status0 with doorOpen := [1, 0, 0, 0] }

/-! ## Claim C1 -/

/-- The door fold of lines 300-301 is constantly `true`: its accumulator
starts at `true` and is only ever OR-ed. -/
lemma doorFold_const (doors : List Nat) :
    doors.foldl (fun closedAccu d => closedAccu || decide (d = 0)) true = true := by
  induction doors with
  | nil => rfl
  | cons d t ih => simpa using ih

/-- Claim C1: the spec says `closed_locked` is false whenever any door-open
flag is set.  The code disagrees: with the car locked, trunk and hood
closed, and the front-left door open, `closedLocked` still evaluates to
`true`, because the `reduce` over the doors starts from `true` and uses
`||`, so the per-door flags are dead code (the intended accumulator is
clearly `closedAccu && !doorOpen[door]`). -/
theorem c1_closed_locked_ignores_doors :
    closedLockedOf openDoorStatus = true ∧
    openDoorStatus.doorLock = true ∧
    openDoorStatus.trunkOpen = false ∧
    openDoorStatus.hoodOpen = false ∧
    openDoorStatus.doorOpen = [1, 0, 0, 0] := by
  decide

/-! ## Claim C6 -/

/-- `triggersFired` as a function of the four change flags and the four new
boolean values only. -/
def triggersCore (ec cc ac dc e c a d : Bool) : List String :=
  (if ec then [if e then "engine_true" else "engine_false"] else [])
  ++ (if cc then [if c then "charging_true" else "charging_false"] else [])
  ++ (if ac then [if a then "climate_control_true" else "climate_control_false"] else [])
  ++ (if dc then [if d then "defrost_true" else "defrost_false"] else [])

/-- `changedCount` as a function of the four change flags only. -/
def changedCountCore (ec cc ac dc : Bool) : Nat :=
  (if ec then 1 else 0) + (if cc then 1 else 0)
  + (if ac then 1 else 0) + (if dc then 1 else 0)

lemma triggersFired_core (sink : Sink) (st : Status) :
    triggersFired sink st =
      triggersCore (engineChangeOf sink st) (chargingChangeOf sink st)
        (climateControlChangeOf sink st) (defrostChangeOf sink st)
        st.engine st.batteryCharge st.airCtrlOn st.defrost := rfl

lemma changedCount_core (sink : Sink) (st : Status) :
    changedCount sink st =
      changedCountCore (engineChangeOf sink st) (chargingChangeOf sink st)
        (climateControlChangeOf sink st) (defrostChangeOf sink st) := rfl

lemma c6_core (ec cc ac dc e c a d : Bool) :
    (triggersCore ec cc ac dc e c a d).length = changedCountCore ec cc ac dc ∧
    (changedCountCore ec cc ac dc = 1 →
      triggersCore ec cc ac dc e c a d =
        [if ec then (if e then "engine_true" else "engine_false")
         else if cc then (if c then "charging_true" else "charging_false")
         else if ac then (if a then "climate_control_true" else "climate_control_false")
         else (if d then "defrost_true" else "defrost_false")]) ∧
    (changedCountCore ec cc ac dc = 0 → triggersCore ec cc ac dc e c a d = []) := by
  revert ec cc ac dc e c a d
  decide

/-- Claim C6: one `handleInfo` run fires as many directional triggers as
monitored booleans changed; when exactly one of
{engine, charging, climate-control, defrost} changed, the single fired
trigger is the `_true` variant of that property when its new value is true
and the `_false` variant otherwise; when none changed, no trigger fires. -/
theorem c6_directional_triggers (sink : Sink) (st : Status) :
    (triggersFired sink st).length = changedCount sink st ∧
    (changedCount sink st = 1 →
      triggersFired sink st =
        [if engineChangeOf sink st then
           (if st.engine then "engine_true" else "engine_false")
         else if chargingChangeOf sink st then
           (if st.batteryCharge then "charging_true" else "charging_false")
         else if climateControlChangeOf sink st then
           (if st.airCtrlOn then "climate_control_true" else "climate_control_false")
         else (if st.defrost then "defrost_true" else "defrost_false")]) ∧
    (changedCount sink st = 0 → triggersFired sink st = []) := by
  rw [triggersFired_core, changedCount_core]
  exact c6_core _ _ _ _ _ _ _ _

/-- The previously published view for the C6 witness: engine was false,
the other three booleans match `status1`. -/
def sinkW : Sink :=
  { hasCapability := fun _ => true,
    getCapabilityValue := fun c =>
      if c = "engine" then Value.vB false
      else if c = "charging" then Value.vB status1.batteryCharge
      else if c = "climate_control" then Value.vB status1.airCtrlOn
      else if c = "defrost" then Value.vB status1.defrost
      else Value.vNull }

/-- Witness for C6: `status1` has `engine = true`, so a snapshot where only
`engine` flipped false→true fires exactly `["engine_true"]`. -/
theorem c6_directional_triggers_witness :
    triggersFired sinkW status1 = ["engine_true"] := by
  rw [(c6_directional_triggers sinkW status1).2.1 (by decide)]
  decide

/-! ## Claim C7 -/

def ext0 : Externals :=
  { getTempFromCode := fun _ => Value.vN 22,
    getCarLocString := fun _ => "Utrecht",
    distance := fun _ => Value.vN 1 }

def info0 : Info := { status := status0, location := loc0, odometer := odo0 }

/-- A sink whose stored capability values already equal every value
`handleInfo` derives from `info0` (an unchanged snapshot). -/
def sink0 : Sink :=
  { hasCapability := fun _ => true,
    getCapabilityValue := fun c =>
      (((derivedCaps cSettings ext0 true info0).lookup c).getD Value.vNull) }

/-- Counterexample to claim C7 as stated: for an unchanged snapshot the
cycle issues zero `setCapabilityValue` invocations, not one per derived
property — `setCapability` itself filters unchanged values before touching
the sink ("only update changed capabilities"). -/
theorem c7_unconditional_writes_counterexample :
    capabilityWrites cSettings ext0 sink0 true info0 = [] ∧
    (derivedCaps cSettings ext0 true info0).length = 18 := by
  decide

/-- Claim C7 (amended): each cycle evaluates `setCapability` for all 18
derived properties, but `setCapabilityValue` is invoked exactly for those
the device has whose new value differs from the stored capability value;
unchanged values produce no sink write. -/
theorem c7_capability_writes_filter (settings : Settings) (ext : Externals)
    (sink : Sink) (liveData : Bool) (info : Info) :
    capabilityWrites settings ext sink liveData info =
      (derivedCaps settings ext liveData info).filter
        (fun p => sink.hasCapability p.1
          && decide (p.2 ≠ sink.getCapabilityValue p.1)) := by
  unfold capabilityWrites
  generalize derivedCaps settings ext liveData info = l
  induction l with
  | nil => rfl
  | cons p t ih =>
    have hsc : setCapability sink p.1 p.2 =
        (if (sink.hasCapability p.1
              && decide (p.2 ≠ sink.getCapabilityValue p.1)) = true
         then [(p.1, p.2)] else []) := by
      by_cases h1 : sink.hasCapability p.1 <;>
        by_cases h2 : p.2 = sink.getCapabilityValue p.1 <;>
        simp [setCapability, h1, h2]
    rw [List.flatMap_cons, hsc, List.filter_cons, ih]
    split <;> simp_all

/-! ## Claims about the watchdog (C3, C8, C10) -/

lemma outcome_classify (o : Outcome) :
    isPublished o = true ∨ o = Outcome.restarted ∨ isFailOrSkip o = true := by
  cases o <;> simp [isPublished, isFailOrSkip]

/-- Claim C3: per poll cycle, the watchdog counter is decremented by exactly
one on a failing or busy-skipped cycle, reset to its full budget 5 exactly
on a cycle that completes through snapshot publication, and left unchanged
otherwise (the only remaining transition is the restart path). -/
theorem c3_watchdog_transitions (settings : Settings) (env : Env)
    (s : DeviceState) (force : Bool) :
    (doPoll settings env s force).1.watchDogCounter =
      (if isPublished (doPoll settings env s force).2.1 then 5
       else if isFailOrSkip (doPoll settings env s force).2.1 then
         s.watchDogCounter - 1
       else s.watchDogCounter) := by
  rcases doPoll_cases settings env s force with
    ⟨h0, heq⟩ | ⟨h0, hb, heq⟩ | ⟨h0, hb, hl, heq⟩ | ⟨h0, hb, hl, hv, heq⟩ |
    ⟨h0, hb, hl, hv, hf, heq⟩ | ⟨h0, hb, hl, hv, hf, hc, heq⟩ |
    ⟨h0, hb, hl, hv, hf, st, hc, heq⟩ <;>
    rw [heq]
  · simp [isPublished, isFailOrSkip]
  · simp [isPublished, isFailOrSkip]
  · simp [isPublished, isFailOrSkip, failState]
  · simp [isPublished, isFailOrSkip, failState]
  · rw [doPollRest_watchdog]
    have h1 := (doPollRest_outcome settings env { s with busy := true } true
      s.lastStatus [ApiCall.login]).1
    rcases outcome_classify (doPollRest settings env { s with busy := true } true
      s.lastStatus [ApiCall.login]).2.1 with h | h | h
    · simp [h]
    · exact absurd h h1
    · have hnp : isPublished (doPollRest settings env { s with busy := true } true
          s.lastStatus [ApiCall.login]).2.1 = false := by
        revert h
        cases (doPollRest settings env { s with busy := true } true
          s.lastStatus [ApiCall.login]).2.1 <;> simp [isPublished, isFailOrSkip]
      simp [h, hnp]
  · simp [isPublished, isFailOrSkip, failState]
  · rw [doPollRest_watchdog]
    have h1 := (doPollRest_outcome settings env { s with busy := true } false
      (some st) [ApiCall.login, ApiCall.statusCached]).1
    rcases outcome_classify (doPollRest settings env { s with busy := true } false
      (some st) [ApiCall.login, ApiCall.statusCached]).2.1 with h | h | h
    · simp [h]
    · exact absurd h h1
    · have hnp : isPublished (doPollRest settings env { s with busy := true } false
          (some st) [ApiCall.login, ApiCall.statusCached]).2.1 = false := by
        revert h
        cases (doPollRest settings env { s with busy := true } false
          (some st) [ApiCall.login, ApiCall.statusCached]).2.1 <;>
          simp [isPublished, isFailOrSkip]
      simp [h, hnp]

/-- Claim C8: a cycle entered with `watchDogCounter <= 0` makes no API call,
leaves the device state to the restart path, and the restart sequence
(`restartDevice` then the deferred `onInitDevice`) tears down scheduling,
clears `busy`, refills the watchdog and re-arms polling. -/
theorem c8_watchdog_restart (settings : Settings) (env : Env)
    (s : DeviceState) (force : Bool) (h : s.watchDogCounter ≤ 0) :
    doPoll settings env s force = (s, Outcome.restarted, []) ∧
    ∀ armed : Bool,
      (restartDevice ⟨s, armed⟩).pollingArmed = false ∧
      (onInitDevice (restartDevice ⟨s, armed⟩)).dev.busy = false ∧
      (onInitDevice (restartDevice ⟨s, armed⟩)).dev.watchDogCounter = 5 ∧
      (onInitDevice (restartDevice ⟨s, armed⟩)).pollingArmed = true := by
  exact ⟨by simp [doPoll, h], fun armed => ⟨rfl, rfl, rfl, rfl⟩⟩

/-- Witness for C8 at a concrete exhausted state. -/
theorem c8_watchdog_restart_witness :
    doPoll cSettings cEnvOk { cState with watchDogCounter := 0 } false =
      ({ cState with watchDogCounter := 0 }, Outcome.restarted, []) ∧
    (onInitDevice (restartDevice
      ⟨{ cState with watchDogCounter := 0 }, true⟩)).dev.busy = false :=
  ⟨(c8_watchdog_restart cSettings cEnvOk { cState with watchDogCounter := 0 }
      false (by decide)).1,
   ((c8_watchdog_restart cSettings cEnvOk { cState with watchDogCounter := 0 }
      false (by decide)).2 true).2.1⟩

/-- Claim C10: the watchdog starts at its budget 5 and, under sequential
poll cycles, always stays within [0, 5]: decrement sites run only when the
counter was strictly positive at cycle entry, and the only other
assignment sets it to 5. -/
theorem c10_watchdog_bounds (settings : Settings) :
    (∀ st : SchedState, (onInitDevice st).dev.watchDogCounter = 5) ∧
    (∀ (env : Env) (s : DeviceState) (force : Bool),
      wdInv s → wdInv (doPoll settings env s force).1) ∧
    (∀ (steps : List (Env × Bool)) (s : DeviceState),
      wdInv s → wdInv (runCycles settings steps s)) := by
  have hstep : ∀ (env : Env) (s : DeviceState) (force : Bool),
      wdInv s → wdInv (doPoll settings env s force).1 := by
    intro env s force hs
    obtain ⟨hlo, hhi⟩ := hs
    rcases doPoll_cases settings env s force with
      ⟨h0, heq⟩ | ⟨h0, hb, heq⟩ | ⟨h0, hb, hl, heq⟩ | ⟨h0, hb, hl, hv, heq⟩ |
      ⟨h0, hb, hl, hv, hf, heq⟩ | ⟨h0, hb, hl, hv, hf, hc, heq⟩ |
      ⟨h0, hb, hl, hv, hf, st, hc, heq⟩ <;> rw [heq]
    · exact ⟨hlo, hhi⟩
    · exact ⟨by dsimp; omega, by dsimp; omega⟩
    · exact ⟨by dsimp [failState]; omega, by dsimp [failState]; omega⟩
    · exact ⟨by dsimp [failState]; omega, by dsimp [failState]; omega⟩
    · have hw := doPollRest_watchdog settings env { s with busy := true } true
        s.lastStatus [ApiCall.login]
      refine ⟨?_, ?_⟩ <;> rw [hw] <;> split <;> first | omega | (dsimp; omega)
    · exact ⟨by dsimp [failState]; omega, by dsimp [failState]; omega⟩
    · have hw := doPollRest_watchdog settings env { s with busy := true } false
        (some st) [ApiCall.login, ApiCall.statusCached]
      refine ⟨?_, ?_⟩ <;> rw [hw] <;> split <;> first | omega | (dsimp; omega)
  refine ⟨fun st => rfl, hstep, ?_⟩
  intro steps
  induction steps with
  | nil => intro s hs; exact hs
  | cons p rest ih =>
    intro s hs
    exact ih _ (hstep p.1 s p.2 hs)

/-- Witness for C10: the watchdog invariant holds after a concrete
three-cycle run from the initial state. -/
theorem c10_watchdog_bounds_witness :
    wdInv (runCycles cSettings
      [(cEnvLocFail, true), (cEnvOk, false), (cEnvOk, true)] cState) :=
  (c10_watchdog_bounds cSettings).2.2
    [(cEnvLocFail, true), (cEnvOk, false), (cEnvOk, true)] cState
    ⟨by decide, by decide⟩

/-! ## Claim C9 -/

/-- Claim C9: a cycle whose full-refresh status fetch succeeds but whose
location fetch fails keeps the previously stored location snapshot
unchanged, ends with `busy` cleared and the watchdog decremented by one,
and issues the location call exactly once (no synchronous retry). -/
theorem c9_location_failure (settings : Settings) (env : Env)
    (s : DeviceState) (force : Bool)
    (h : (doPoll settings env s force).2.1 = Outcome.errLocation) :
    (doPoll settings env s force).1.lastLocation = s.lastLocation ∧
    (doPoll settings env s force).1.busy = false ∧
    (doPoll settings env s force).1.watchDogCounter = s.watchDogCounter - 1 ∧
    ((doPoll settings env s force).2.2.count ApiCall.location) = 1 := by
  rcases doPoll_cases settings env s force with
    ⟨h0, heq⟩ | ⟨h0, hb, heq⟩ | ⟨h0, hb, hl, heq⟩ | ⟨h0, hb, hl, hv, heq⟩ |
    ⟨h0, hb, hl, hv, hf, heq⟩ | ⟨h0, hb, hl, hv, hf, hc, heq⟩ |
    ⟨h0, hb, hl, hv, hf, st, hc, heq⟩
  · rw [heq] at h; cases h
  · rw [heq] at h; cases h
  · rw [heq] at h; cases h
  · rw [heq] at h; cases h
  · rw [heq] at h ⊢
    have hsnap := ((doPollRest_snapshots settings env { s with busy := true } true
      s.lastStatus [ApiCall.login]).2.1 h).2
    have hbusy := doPollRest_busy settings env { s with busy := true } true
      s.lastStatus [ApiCall.login]
    have hwd := doPollRest_watchdog settings env { s with busy := true } true
      s.lastStatus [ApiCall.login]
    have hcalls := doPollRest_errLocation_calls settings env { s with busy := true }
      true s.lastStatus [ApiCall.login] h
    rw [h] at hwd
    refine ⟨hsnap.1, hbusy, ?_, ?_⟩
    · rw [hwd]; simp [isPublished]
    · rw [hcalls]; decide
  · rw [heq] at h; cases h
  · rw [heq] at h ⊢
    have hsnap := ((doPollRest_snapshots settings env { s with busy := true } false
      (some st) [ApiCall.login, ApiCall.statusCached]).2.1 h).2
    have hbusy := doPollRest_busy settings env { s with busy := true } false
      (some st) [ApiCall.login, ApiCall.statusCached]
    have hwd := doPollRest_watchdog settings env { s with busy := true } false
      (some st) [ApiCall.login, ApiCall.statusCached]
    have hcalls := doPollRest_errLocation_calls settings env { s with busy := true }
      false (some st) [ApiCall.login, ApiCall.statusCached] h
    rw [h] at hwd
    refine ⟨hsnap.1, hbusy, ?_, ?_⟩
    · rw [hwd]; simp [isPublished]
    · rw [hcalls]; decide

/-- Witness for C9 at the concrete location-failure cycle. -/
theorem c9_location_failure_witness :
    (doPoll cSettings cEnvLocFail cState true).1.lastLocation =
      cState.lastLocation ∧
    (doPoll cSettings cEnvLocFail cState true).1.busy = false ∧
    (doPoll cSettings cEnvLocFail cState true).1.watchDogCounter =
      cState.watchDogCounter - 1 ∧
    ((doPoll cSettings cEnvLocFail cState true).2.2.count ApiCall.location) = 1 :=
  c9_location_failure cSettings cEnvLocFail cState true (by decide)

/-! ## Claim C2 -/

/-- Counterexample to claim C2 as stated: in a cycle where the full status
fetch succeeds and the location fetch then fails, the stored snapshot does
change — `this.lastStatus = status` (line 136) runs before the location
fetch, so the new status is kept while location and odometer stay stale. -/
theorem c2_snapshot_not_atomic_counterexample :
    (doPoll cSettings cEnvLocFail cState true).2.1 = Outcome.errLocation ∧
    (doPoll cSettings cEnvLocFail cState true).1.lastStatus ≠ cState.lastStatus ∧
    (doPoll cSettings cEnvLocFail cState true).1.lastLocation = cState.lastLocation ∧
    (doPoll cSettings cEnvLocFail cState true).1.lastOdometer = cState.lastOdometer := by
  decide

/-- Claim C2 (amended): the snapshot is updated field by field in fetch
order, not atomically.  `lastStatus` is replaced as soon as a status record
is in hand (even on cheap, non-refresh cycles); if the location fetch then
fails, the new status is kept while `lastLocation` and `lastOdometer`
retain their previous values; if the odometer fetch fails, the new status
and location are kept while `lastOdometer` is retained; all three are
replaced together only when every fetch succeeds; cycles that obtain no
status record leave all three unchanged. -/
theorem c2_snapshot_update_characterization (settings : Settings) (env : Env)
    (s : DeviceState) (force : Bool) :
    ((doPoll settings env s force).2.1 = Outcome.errLocation →
      (doPoll settings env s force).1.lastStatus = env.fullStatus ∧
      (doPoll settings env s force).1.lastLocation = s.lastLocation ∧
      (doPoll settings env s force).1.lastOdometer = s.lastOdometer) ∧
    ((doPoll settings env s force).2.1 = Outcome.errOdometer →
      (doPoll settings env s force).1.lastStatus = env.fullStatus ∧
      (doPoll settings env s force).1.lastLocation = env.location ∧
      (doPoll settings env s force).1.lastOdometer = s.lastOdometer) ∧
    (∀ i, (doPoll settings env s force).2.1 = Outcome.published i true →
      (doPoll settings env s force).1.lastStatus = env.fullStatus ∧
      (doPoll settings env s force).1.lastLocation = env.location ∧
      (doPoll settings env s force).1.lastOdometer = env.odometer) ∧
    (∀ i, (doPoll settings env s force).2.1 = Outcome.published i false →
      (doPoll settings env s force).1.lastStatus = i.1 ∧
      (doPoll settings env s force).1.lastLocation = s.lastLocation ∧
      (doPoll settings env s force).1.lastOdometer = s.lastOdometer) ∧
    (((doPoll settings env s force).2.1 = Outcome.restarted ∨
      (doPoll settings env s force).2.1 = Outcome.skippedBusy ∨
      (doPoll settings env s force).2.1 = Outcome.errLogin ∨
      (doPoll settings env s force).2.1 = Outcome.errNotLoggedIn ∨
      (doPoll settings env s force).2.1 = Outcome.errCheapFetch ∨
      (doPoll settings env s force).2.1 = Outcome.errFullFetch) →
      (doPoll settings env s force).1.lastStatus = s.lastStatus ∧
      (doPoll settings env s force).1.lastLocation = s.lastLocation ∧
      (doPoll settings env s force).1.lastOdometer = s.lastOdometer) := by
  rcases doPoll_cases settings env s force with
    ⟨h0, heq⟩ | ⟨h0, hb, heq⟩ | ⟨h0, hb, hl, heq⟩ | ⟨h0, hb, hl, hv, heq⟩ |
    ⟨h0, hb, hl, hv, hf, heq⟩ | ⟨h0, hb, hl, hv, hf, hc, heq⟩ |
    ⟨h0, hb, hl, hv, hf, st, hc, heq⟩ <;> rw [heq]
  · simp [failState]
  · simp [failState]
  · simp [failState]
  · simp [failState]
  · have hsnap := doPollRest_snapshots settings env { s with busy := true } true
      s.lastStatus [ApiCall.login]
    obtain ⟨he1, he2, he3, hp1, hp0⟩ := hsnap
    refine ⟨fun h => (he2 h), fun h => (he3 h), ?_, ?_, ?_⟩
    · intro i hi
      obtain ⟨a, b, c, _, _, _⟩ := hp1 i hi
      exact ⟨a, b, c⟩
    · intro i hi
      obtain ⟨a, b, c, d⟩ := hp0 i hi
      exact ⟨by rw [a, ← b], c, d⟩
    · intro h
      have hout := doPollRest_outcome settings env { s with busy := true } true
        s.lastStatus [ApiCall.login]
      rcases h with h | h | h | h | h | h
      · exact absurd h hout.1
      · exact absurd h hout.2.1
      · exact absurd h hout.2.2.1
      · exact absurd h hout.2.2.2.1
      · exact absurd h hout.2.2.2.2
      · exact he1 h
  · simp [failState]
  · have hsnap := doPollRest_snapshots settings env { s with busy := true } false
      (some st) [ApiCall.login, ApiCall.statusCached]
    obtain ⟨he1, he2, he3, hp1, hp0⟩ := hsnap
    refine ⟨fun h => (he2 h), fun h => (he3 h), ?_, ?_, ?_⟩
    · intro i hi
      obtain ⟨a, b, c, _, _, _⟩ := hp1 i hi
      exact ⟨a, b, c⟩
    · intro i hi
      obtain ⟨a, b, c, d⟩ := hp0 i hi
      exact ⟨by rw [a, ← b], c, d⟩
    · intro h
      have hout := doPollRest_outcome settings env { s with busy := true } false
        (some st) [ApiCall.login, ApiCall.statusCached]
      rcases h with h | h | h | h | h | h
      · exact absurd h hout.1
      · exact absurd h hout.2.1
      · exact absurd h hout.2.2.1
      · exact absurd h hout.2.2.2.1
      · exact absurd h hout.2.2.2.2
      · exact he1 h

/-- Witness for the amended C2 at the concrete location-failure cycle. -/
theorem c2_snapshot_update_witness :
    (doPoll cSettings cEnvLocFail cState true).1.lastStatus =
      cEnvLocFail.fullStatus ∧
    (doPoll cSettings cEnvLocFail cState true).1.lastLocation =
      cState.lastLocation ∧
    (doPoll cSettings cEnvLocFail cState true).1.lastOdometer =
      cState.lastOdometer :=
  (c2_snapshot_update_characterization cSettings cEnvLocFail cState true).1
    (by decide)

/-! ## Claim C5 -/

/-- Claim C5: `forceRefresh` holds exactly when the caller forced the poll,
or a forced-poll interval is configured and more time than it has elapsed
since the last refresh timestamp, or any of the three stored snapshot parts
is missing; and a force-refresh cycle never issues the cheap cached-status
fetch. -/
theorem c5_forceRefresh_decision (settings : Settings) (env : Env)
    (s : DeviceState) (force : Bool) :
    (forceRefreshOf settings env.now s force = true ↔
      (force = true ∨
       (settings.pollIntervalForced ≠ 0 ∧
         ∃ t, s.lastRefresh = some t ∧
           (settings.pollIntervalForced : Int) * 60 * 1000 < env.now - t) ∨
       s.lastStatus = none ∨ s.lastLocation = none ∨ s.lastOdometer = none)) ∧
    (forceRefreshOf settings env.now s force = true →
      ApiCall.statusCached ∉ (doPoll settings env s force).2.2) := by
  constructor
  · cases hr : s.lastRefresh with
    | none =>
      simp only [forceRefreshOf, forcedIntervalElapsed, hr,
        Option.isNone_iff_eq_none, Bool.or_eq_true, Bool.and_eq_true,
        decide_eq_true_eq]
      tauto
    | some t =>
      simp only [forceRefreshOf, forcedIntervalElapsed, hr,
        Option.isNone_iff_eq_none, Bool.or_eq_true, Bool.and_eq_true,
        decide_eq_true_eq, Option.some.injEq]
      constructor
      · rintro ((((h | ⟨h1, h2⟩) | h) | h) | h)
        · exact Or.inl h
        · exact Or.inr (Or.inl ⟨h1, t, rfl, h2⟩)
        · exact Or.inr (Or.inr (Or.inl h))
        · exact Or.inr (Or.inr (Or.inr (Or.inl h)))
        · exact Or.inr (Or.inr (Or.inr (Or.inr h)))
      · rintro (h | ⟨h1, t2, ht2, h2⟩ | h | h | h)
        · exact Or.inl (Or.inl (Or.inl (Or.inl h)))
        · cases ht2
          exact Or.inl (Or.inl (Or.inl (Or.inr ⟨h1, h2⟩)))
        · exact Or.inl (Or.inl (Or.inr h))
        · exact Or.inl (Or.inr h)
        · exact Or.inr h
  · intro hf hmem
    rcases doPoll_cases settings env s force with
      ⟨h0, heq⟩ | ⟨h0, hb, heq⟩ | ⟨h0, hb, hl, heq⟩ | ⟨h0, hb, hl, hv, heq⟩ |
      ⟨h0, hb, hl, hv, hf2, heq⟩ | ⟨h0, hb, hl, hv, hf2, hc, heq⟩ |
      ⟨h0, hb, hl, hv, hf2, st, hc, heq⟩
    · rw [heq] at hmem; simp at hmem
    · rw [heq] at hmem; simp at hmem
    · rw [heq] at hmem; simp at hmem
    · rw [heq] at hmem; simp at hmem
    · rw [heq] at hmem
      rcases doPollRest_calls settings env { s with busy := true } true
        s.lastStatus [ApiCall.login] ApiCall.statusCached hmem with h | h | h | h | h <;>
        simp_all
    · rw [hf] at hf2; cases hf2
    · rw [hf] at hf2; cases hf2

/-- Witness for C5: on the concrete forced cycle, the cheap fetch is
skipped. -/
theorem c5_forceRefresh_decision_witness :
    ApiCall.statusCached ∉ (doPoll cSettings cEnvOk cState true).2.2 :=
  (c5_forceRefresh_decision cSettings cEnvOk cState true).2 (by decide)

/-! ## Claim C4 -/

/-- The status record in hand at the `liveData` decision (line 126): the
stored one when the cycle forces a refresh, otherwise the cheap fetch
result. -/
def statusInHand (settings : Settings) (env : Env) (s : DeviceState)
    (force : Bool) : Option Status :=
  if forceRefreshOf settings env.now s force then s.lastStatus else env.cachedStatus

/-- Claim C4: on every cycle that reaches the decision, the stored
`liveData` flag equals `forceRefresh OR (12V SoC strictly above the alarm
threshold AND (car active OR active within the last 5 minutes))`; and when
it is false the cycle issues no full-refresh fetch yet still publishes the
cached status with the previous location and odometer. -/
theorem c4_liveData_decision (settings : Settings) (env : Env)
    (s : DeviceState) (force : Bool)
    (hwd : 0 < s.watchDogCounter) (hbusy : s.busy = false)
    (hlogin : env.loginOk = true) (hveh : env.vehicleOk = true)
    (hcheap : forceRefreshOf settings env.now s force = false →
      env.cachedStatus.isSome) :
    ((doPoll settings env s force).1.liveData =
      (forceRefreshOf settings env.now s force
        || (batSoCGoodOf settings (statusInHand settings env s force)
              && (carActiveOf (statusInHand settings env s force)
                    (sleepModeCheckOf (statusInHand settings env s force)
                      s.lastStatus)
                  || carJustActiveOf env.now s.carLastActive)))) ∧
    ((doPoll settings env s force).1.liveData = false →
      ApiCall.statusFull ∉ (doPoll settings env s force).2.2 ∧
      (doPoll settings env s force).2.1 =
        Outcome.published
          (statusInHand settings env s force, s.lastLocation, s.lastOdometer)
          false) := by
  rcases doPoll_cases settings env s force with
    ⟨h0, heq⟩ | ⟨h0, hb, heq⟩ | ⟨h0, hb, hl, heq⟩ | ⟨h0, hb, hl, hv, heq⟩ |
    ⟨h0, hb, hl, hv, hf, heq⟩ | ⟨h0, hb, hl, hv, hf, hc, heq⟩ |
    ⟨h0, hb, hl, hv, hf, st, hc, heq⟩
  · omega
  · rw [hb] at hbusy; cases hbusy
  · rw [hl] at hlogin; cases hlogin
  · rw [hv] at hveh; cases hveh
  · -- forceRefresh = true: liveData is true on both sides
    have hld : liveDataOf settings env { s with busy := true } true s.lastStatus
        = true := by simp [liveDataOf]
    constructor
    · rw [heq, doPollRest_liveData, hld, statusInHand, hf]
      simp
    · intro hfalse
      rw [heq, doPollRest_liveData, hld] at hfalse
      cases hfalse
  · exact absurd (hcheap hf) (by rw [hc]; decide)
  · -- forceRefresh = false, cheap fetch returned st
    have hsih : statusInHand settings env s force = some st := by
      rw [statusInHand, hf, hc]; rfl
    constructor
    · rw [heq, doPollRest_liveData, hsih]
      simp [liveDataOf, hf]
    · intro hfalse
      rw [heq, doPollRest_liveData] at hfalse
      have hnl := doPollRest_not_live settings env { s with busy := true } false
        (some st) [ApiCall.login, ApiCall.statusCached] hfalse
      rw [heq, hnl.1, hnl.2, hsih]
      refine ⟨by decide, rfl⟩

/-- Witness for C4: a concrete low-battery, inactive, unforced cycle has
`liveData = false`, issues no full-refresh call, and republishes the cached
status. -/
theorem c4_liveData_decision_witness :
    (doPoll { cSettings with batteryAlarmLevel := 90 } cEnvOk cState
      false).1.liveData = false ∧
    ApiCall.statusFull ∉
      (doPoll { cSettings with batteryAlarmLevel := 90 } cEnvOk cState
        false).2.2 := by
  have h := c4_liveData_decision { cSettings with batteryAlarmLevel := 90 }
    cEnvOk cState false (by decide) (by decide) (by decide) (by decide)
    (fun _ => by decide)
  refine ⟨?_, ?_⟩
  · rw [h.1]; decide
  · exact (h.2 (by rw [h.1]; decide)).1

end HyundaiKia
